import Mathlib

/-!
Verification of the geometric core of the DataVisualizer application
(point transformation between scatter-plot frames, domain classification,
axis tick generation, overlap detection).

JavaScript double-precision numbers are modelled by the type JSNum below:
a finite value is an exact rational (floating-point rounding is idealised
away; the claims under study either hold exactly or carry explicit
tolerances), and the special values Infinity, -Infinity and NaN are
modelled explicitly so that the code paths that divide by a zero extent
or receive a NaN coordinate are captured faithfully.  Signed zero is not
modelled: division of a nonzero finite value by zero yields the infinity
matching the numerator's sign, and 0/0 yields NaN.
-/

/-- Model of a JavaScript number: an exact rational, an infinity, or NaN. -/
inductive JSNum where
  | fin (q : ℚ)
  | inf
  | ninf
  | nan
deriving DecidableEq, Repr

namespace JSNum

/-- JavaScript isFinite test. -/
def isFinite : JSNum → Bool
  | fin _ => true
  | _ => false

/-- Unary negation. -/
def neg : JSNum → JSNum
  | fin q => fin (-q)
  | inf => ninf
  | ninf => inf
  | nan => nan

/-- Addition with IEEE special-value propagation. -/
def add : JSNum → JSNum → JSNum
  | fin a, fin b => fin (a + b)
  | fin _, inf => inf
  | fin _, ninf => ninf
  | inf, fin _ => inf
  | ninf, fin _ => ninf
  | inf, inf => inf
  | ninf, ninf => ninf
  | inf, ninf => nan
  | ninf, inf => nan
  | _, _ => nan

/-- Subtraction, defined as addition of the negation. -/
def sub (a b : JSNum) : JSNum := add a (neg b)

/-- Multiplication with IEEE special-value propagation
(zero times an infinity is NaN). -/
def mul : JSNum → JSNum → JSNum
  | fin a, fin b => fin (a * b)
  | fin a, inf => if 0 < a then inf else if a < 0 then ninf else nan
  | fin a, ninf => if 0 < a then ninf else if a < 0 then inf else nan
  | inf, fin b => if 0 < b then inf else if b < 0 then ninf else nan
  | ninf, fin b => if 0 < b then ninf else if b < 0 then inf else nan
  | inf, inf => inf
  | inf, ninf => ninf
  | ninf, inf => ninf
  | ninf, ninf => inf
  | _, _ => nan

/-- Division.  Division of a finite value by zero yields the infinity of
the numerator's sign (signed zero is not modelled) and 0/0 yields NaN;
an infinity divided by an infinity is NaN. -/
def div : JSNum → JSNum → JSNum
  | fin a, fin b =>
      if b = 0 then (if 0 < a then inf else if a < 0 then ninf else nan)
      else fin (a / b)
  | fin _, inf => fin 0
  | fin _, ninf => fin 0
  | inf, fin b => if 0 ≤ b then inf else ninf
  | ninf, fin b => if 0 ≤ b then ninf else inf
  | _, _ => nan

/-- JavaScript Math.max on two arguments: NaN-absorbing maximum. -/
def jmax : JSNum → JSNum → JSNum
  | fin a, fin b => fin (max a b)
  | fin _, inf => inf
  | inf, fin _ => inf
  | inf, inf => inf
  | fin a, ninf => fin a
  | ninf, fin b => fin b
  | ninf, inf => inf
  | inf, ninf => inf
  | ninf, ninf => ninf
  | _, _ => nan

/-- JavaScript Math.min on two arguments: NaN-absorbing minimum. -/
def jmin : JSNum → JSNum → JSNum
  | fin a, fin b => fin (min a b)
  | fin _, ninf => ninf
  | ninf, fin _ => ninf
  | ninf, ninf => ninf
  | fin a, inf => fin a
  | inf, fin b => fin b
  | ninf, inf => ninf
  | inf, ninf => ninf
  | inf, inf => inf
  | _, _ => nan

/-- JavaScript strict less-than: any comparison involving NaN is false. -/
def jlt : JSNum → JSNum → Bool
  | fin a, fin b => decide (a < b)
  | fin _, inf => true
  | ninf, fin _ => true
  | ninf, inf => true
  | _, _ => false

/-- Model of the JavaScript idiom x || 0 on a number: 0 and NaN are
falsy, so they are replaced by 0 (signed zero is not modelled). -/
def orZero (x : JSNum) : JSNum :=
  if x = fin 0 ∨ x = nan then fin 0 else x

/-- Lifting of a real trigonometric function given on finite arguments:
JavaScript Math.cos / Math.sin return NaN on any non-finite argument. -/
def trig (f : ℚ → ℚ) : JSNum → JSNum
  | fin q => fin (f q)
  | _ => nan

@[simp] theorem add_fin (a b : ℚ) : add (fin a) (fin b) = fin (a + b) := rfl

@[simp] theorem neg_fin (a : ℚ) : neg (fin a) = fin (-a) := rfl

@[simp] theorem sub_fin (a b : ℚ) : sub (fin a) (fin b) = fin (a - b) := by
  simp [sub, add, sub_eq_add_neg]

@[simp] theorem mul_fin (a b : ℚ) : mul (fin a) (fin b) = fin (a * b) := rfl

theorem div_fin {b : ℚ} (a : ℚ) (hb : b ≠ 0) :
    div (fin a) (fin b) = fin (a / b) := by
  simp [div, hb]

@[simp] theorem jmax_fin (a b : ℚ) : jmax (fin a) (fin b) = fin (max a b) := rfl

@[simp] theorem jmin_fin (a b : ℚ) : jmin (fin a) (fin b) = fin (min a b) := rfl

@[simp] theorem trig_fin (f : ℚ → ℚ) (q : ℚ) : trig f (fin q) = fin (f q) := rfl

@[simp] theorem orZero_fin (q : ℚ) : orZero (fin q) = fin q := by
  unfold orZero
  split
  · rename_i h
    rcases h with h | h
    · exact h.symm
    · exact absurd h (by simp)
  · rfl

@[simp] theorem nan_add (x : JSNum) : add nan x = nan := by cases x <;> rfl

@[simp] theorem add_nan (x : JSNum) : add x nan = nan := by cases x <;> rfl

@[simp] theorem neg_nan : neg nan = nan := rfl

@[simp] theorem nan_sub (x : JSNum) : sub nan x = nan := by cases x <;> rfl

@[simp] theorem sub_nan (x : JSNum) : sub x nan = nan := by cases x <;> rfl

@[simp] theorem nan_mul (x : JSNum) : mul nan x = nan := by cases x <;> rfl

@[simp] theorem mul_nan (x : JSNum) : mul x nan = nan := by cases x <;> rfl

@[simp] theorem nan_div (x : JSNum) : div nan x = nan := by cases x <;> rfl

@[simp] theorem div_nan (x : JSNum) : div x nan = nan := by cases x <;> rfl

@[simp] theorem nan_jmax (x : JSNum) : jmax nan x = nan := by cases x <;> rfl

@[simp] theorem jmax_nan (x : JSNum) : jmax x nan = nan := by cases x <;> rfl

@[simp] theorem nan_jmin (x : JSNum) : jmin nan x = nan := by cases x <;> rfl

@[simp] theorem jmin_nan (x : JSNum) : jmin x nan = nan := by cases x <;> rfl

@[simp] theorem trig_nan (f : ℚ → ℚ) : trig f nan = nan := rfl

end JSNum

/-!
Data model.  The source passes loosely-typed records; the structures
below carry exactly the fields the modelled code reads or writes.
-/

/-- Pixel position {x, y} of a frame (canvas space). -/
structure JSPos where
  x : JSNum
  y : JSNum
deriving DecidableEq, Repr

/-- Pixel size {width, height} of a frame. -/
structure JSSize where
  width : JSNum
  height : JSNum
deriving DecidableEq, Repr

/-- Value domain {xMin, xMax, yMin, yMax} of a frame. -/
structure Domains where
  xMin : JSNum
  xMax : JSNum
  yMin : JSNum
  yMax : JSNum
deriving DecidableEq, Repr

/-- Result of measureChartArea for a mounted graph element.  The function
itself reads the live DOM, so it is modelled by its result: when a graph
argument carries an element, the embedding receives the measured
rectangle directly (finite pixel values). -/
structure ChartMeasure where
  chartLeft : ℚ
  chartTop : ℚ
  chartWidth : ℚ
  chartHeight : ℚ
deriving DecidableEq, Repr

/-- Data point record.  x and y are the coordinates; the remaining
fields model the metadata properties the cited code reads or writes on
the open JavaScript record (a missing property is none):
color, _originalX, _originalY, _originalColor, _isDumped, _source,
_sourceId, _dumpedAt. -/
structure JSPoint where
  x : JSNum
  y : JSNum
  color : Option String := none
  originalX : Option JSNum := none
  originalY : Option JSNum := none
  originalColor : Option String := none
  isDumped : Option Bool := none
  source : Option String := none
  sourceId : Option String := none
  dumpedAt : Option String := none
deriving DecidableEq, Repr

/-- Source-graph argument of transformPoints: { position, size, color,
rotation, element? }. -/
structure SourceGraphArg where
  position : JSPos
  size : JSSize
  color : String
  rotation : JSNum
  element : Option ChartMeasure := none
deriving DecidableEq, Repr

/-- Target-graph argument of transformPoints: { position, size,
rotation, element? }. -/
structure TargetGraphArg where
  position : JSPos
  size : JSSize
  rotation : JSNum
  element : Option ChartMeasure := none
deriving DecidableEq, Repr

/-!
Embedding of transformPoints (src/unnamed/part_000, lines 135-375).
The source computes the offsets and inner dimensions once and then maps
a pure per-point closure over the input list; here the per-point closure
is the top-level function transformPoint (recomputing those pure values
per point, which is meaning-preserving), and transformPoints is the map.
The debug-trace collection and logging side channel of the source do not
affect the returned points and are not modelled.  The trigonometric
functions Math.cos and Math.sin are abstracted by the parameters cosQ
and sinQ (their values on finite arguments); every claim under study
exercises only rotation 0, where the source skips them entirely.
-/

/-- Double-precision value of Math.PI (exact rational value of the
IEEE-754 double nearest to pi). -/
def jsPI : ℚ := 884279719003555 / 281474976710656

namespace Transform

open JSNum

/-- Per-point body of transformPoints: steps 1-8 of the source plus the
final clamping and metadata attachment (lines 262-361). -/
def transformPoint (cosQ sinQ : ℚ → ℚ)
    (fromDomains toDomains : Domains)
    (sourceGraph : SourceGraphArg) (targetGraph : TargetGraphArg)
    (point : JSPoint) : JSPoint :=
  -- chart margins, container padding, border and header constants
  let containerPadding : ℚ := 8
  let borderWidth : ℚ := 1
  let headerHeight : ℚ := 32
  let marginTop : ℚ := 20
  let marginRight : ℚ := 20
  let marginBottom : ℚ := 30
  let marginLeft : ℚ := 50
  let totalTopOffset : JSNum :=
    match sourceGraph.element with
    | some m => fin m.chartTop
    | none => fin (headerHeight + containerPadding + borderWidth + marginTop)
  let totalLeftOffset : JSNum :=
    match sourceGraph.element with
    | some m => fin m.chartLeft
    | none => fin (containerPadding + borderWidth + marginLeft)
  let targetTopOffset : JSNum :=
    match targetGraph.element with
    | some m => fin m.chartTop
    | none => totalTopOffset
  let targetLeftOffset : JSNum :=
    match targetGraph.element with
    | some m => fin m.chartLeft
    | none => totalLeftOffset
  let sourceWidth := sourceGraph.size.width
  let sourceHeight := sourceGraph.size.height
  let sourceInnerWidth : JSNum :=
    match sourceGraph.element with
    | some m => fin m.chartWidth
    | none => sub sourceWidth
        (add (add (add totalLeftOffset (fin marginRight)) (fin containerPadding)) (fin borderWidth))
  let sourceInnerHeight : JSNum :=
    match sourceGraph.element with
    | some m => fin m.chartHeight
    | none => sub sourceHeight
        (add (add (add totalTopOffset (fin marginBottom)) (fin containerPadding)) (fin borderWidth))
  let targetWidth := targetGraph.size.width
  let targetHeight := targetGraph.size.height
  let targetInnerWidth : JSNum :=
    match targetGraph.element with
    | some m => fin m.chartWidth
    | none => sub targetWidth
        (add (add (add targetLeftOffset (fin marginRight)) (fin containerPadding)) (fin borderWidth))
  let targetInnerHeight : JSNum :=
    match targetGraph.element with
    | some m => fin m.chartHeight
    | none => sub targetHeight
        (add (add (add targetTopOffset (fin marginBottom)) (fin containerPadding)) (fin borderWidth))
  let sourceRotationRad := div (mul (orZero sourceGraph.rotation) (fin jsPI)) (fin 180)
  let targetRotationRad := div (mul (orZero targetGraph.rotation) (fin jsPI)) (fin 180)
  -- STEP 1: relative position (0-1) within the source domain, y inverted
  let relativeX := div (sub point.x fromDomains.xMin) (sub fromDomains.xMax fromDomains.xMin)
  let relativeY := sub (fin 1) (div (sub point.y fromDomains.yMin) (sub fromDomains.yMax fromDomains.yMin))
  -- STEP 2: pixel position within the source content area
  let sourceLocalX := add totalLeftOffset (mul relativeX sourceInnerWidth)
  let sourceLocalY := add totalTopOffset (mul relativeY sourceInnerHeight)
  -- STEP 3: source rotation about the frame center (skipped when the
  -- rotation in radians is exactly 0)
  let sourceOffsetX := sub sourceLocalX (div sourceWidth (fin 2))
  let sourceOffsetY := sub sourceLocalY (div sourceHeight (fin 2))
  let rotatedSourceX :=
    if sourceRotationRad ≠ fin 0 then
      sub (mul (trig cosQ sourceRotationRad) sourceOffsetX)
          (mul (trig sinQ sourceRotationRad) sourceOffsetY)
    else sourceOffsetX
  let rotatedSourceY :=
    if sourceRotationRad ≠ fin 0 then
      add (mul (trig sinQ sourceRotationRad) sourceOffsetX)
          (mul (trig cosQ sourceRotationRad) sourceOffsetY)
    else sourceOffsetY
  let finalSourceLocalX := add rotatedSourceX (div sourceWidth (fin 2))
  let finalSourceLocalY := add rotatedSourceY (div sourceHeight (fin 2))
  -- STEP 4: absolute canvas position
  let absoluteX := add sourceGraph.position.x finalSourceLocalX
  let absoluteY := add sourceGraph.position.y finalSourceLocalY
  -- STEP 5: position relative to the target frame
  let targetRelativeX := sub absoluteX targetGraph.position.x
  let targetRelativeY := sub absoluteY targetGraph.position.y
  -- STEP 6: undo the target rotation
  let targetOffsetX := sub targetRelativeX (div targetWidth (fin 2))
  let targetOffsetY := sub targetRelativeY (div targetHeight (fin 2))
  let unrotatedTargetX :=
    if targetRotationRad ≠ fin 0 then
      sub (mul (trig cosQ (JSNum.neg targetRotationRad)) targetOffsetX)
          (mul (trig sinQ (JSNum.neg targetRotationRad)) targetOffsetY)
    else targetOffsetX
  let unrotatedTargetY :=
    if targetRotationRad ≠ fin 0 then
      add (mul (trig sinQ (JSNum.neg targetRotationRad)) targetOffsetX)
          (mul (trig cosQ (JSNum.neg targetRotationRad)) targetOffsetY)
    else targetOffsetY
  let finalTargetLocalX := add unrotatedTargetX (div targetWidth (fin 2))
  let finalTargetLocalY := add unrotatedTargetY (div targetHeight (fin 2))
  -- STEP 7: normalize against the target content area
  let targetRelativeXNormalized := div (sub finalTargetLocalX targetLeftOffset) targetInnerWidth
  let targetRelativeYNormalized := div (sub finalTargetLocalY targetTopOffset) targetInnerHeight
  -- STEP 8: denormalize into the target domain, y inverted back
  let newX := add toDomains.xMin (mul targetRelativeXNormalized (sub toDomains.xMax toDomains.xMin))
  let newY := sub toDomains.yMax (mul targetRelativeYNormalized (sub toDomains.yMax toDomains.yMin))
  -- clamp into the target domain
  let clampedX := jmax toDomains.xMin (jmin toDomains.xMax newX)
  let clampedY := jmax toDomains.yMin (jmin toDomains.yMax newY)
  { point with
    x := clampedX
    y := clampedY
    originalX := some point.x
    originalY := some point.y
    originalColor := some sourceGraph.color
    color := some sourceGraph.color }

/-- transformPoints maps the per-point transformation over the input
list (src/unnamed/part_000, lines 262-361). -/
def transformPoints (cosQ sinQ : ℚ → ℚ) (points : List JSPoint)
    (fromDomains toDomains : Domains)
    (sourceGraph : SourceGraphArg) (targetGraph : TargetGraphArg) : List JSPoint :=
  points.map (transformPoint cosQ sinQ fromDomains toDomains sourceGraph targetGraph)

end Transform

/-- Trigonometric stand-in used to instantiate concrete evaluations; all
evaluated inputs use rotation 0, where the source never calls cos/sin. -/
def zeroTrig : ℚ → ℚ := fun _ => 0

/-!
Embedding of the axis tick generation (src/unnamed/part_000, lines
1718-1744; the y axis at lines 1773-1799 is the same computation).
The inputs are the finite domain bounds; toFixed(10) followed by
parseFloat is modelled by rounding to 10 decimal places exactly.
-/

/-- Model of parseFloat(value.toFixed(10)): round to 10 decimal places. -/
def round10 (q : ℚ) : ℚ := (round (q * 10000000000) : ℤ) / 10000000000

/-- Tick generation for one axis: guard the span with
safeMax = Math.max(max, min + 1), return [min, safeMax] when the
interval count is at most 1, otherwise intervalCount + 1 equally spaced
values, each rounded to 10 decimal places. -/
def generateTicks (min max : ℚ) (intervalCount : ℕ) : List ℚ :=
  let safeMax := Max.max max (min + 1)
  if intervalCount ≤ 1 then [min, safeMax]
  else
    let exactStepSize := (safeMax - min) / intervalCount
    (List.range (intervalCount + 1)).map
      (fun (i : ℕ) => round10 (min + exactStepSize * (i : ℚ)))

/-!
Embedding of the domain classifier (src/unnamed/part_000, lines
605-693) and of the domain sanitization effect (lines 696-703).
-/

/-- Validity filter applied to raw data points (lines 608-626): in the
typed model the null and typeof-number guards of the source are
vacuously true, leaving the isNaN / isFinite checks. -/
def isValidPoint (p : JSPoint) : Bool := p.x.isFinite && p.y.isFinite

/-- Math.min spread over a list of values (Math.min() with no argument
is Infinity; any NaN argument makes the result NaN). -/
def jsMinList (l : List JSNum) : JSNum := l.foldr JSNum.jmin JSNum.inf

/-- Negative-value check of the classifier (line 654):
dataMin.x < 0 || dataMin.y < 0 over the valid points. -/
def hasNegativeValues (validData : List JSPoint) : Bool :=
  JSNum.jlt (jsMinList (validData.map JSPoint.x)) (JSNum.fin 0) ||
  JSNum.jlt (jsMinList (validData.map JSPoint.y)) (JSNum.fin 0)

/-- calculatedDomains: fallback {0,5000,0,5000} for an empty or
all-invalid data set, fixed four-quadrant domain {-2500,2500,-2500,2500}
when any valid coordinate is negative, fixed first-quadrant domain
{0,5000,0,5000} otherwise.  (The source also computes dataMax, which the
classification never reads.) -/
def calculatedDomains (data : List JSPoint) : Domains :=
  if data.isEmpty then
    ⟨JSNum.fin 0, JSNum.fin 5000, JSNum.fin 0, JSNum.fin 5000⟩
  else
    let validData := data.filter isValidPoint
    if validData.isEmpty then
      ⟨JSNum.fin 0, JSNum.fin 5000, JSNum.fin 0, JSNum.fin 5000⟩
    else if hasNegativeValues validData then
      ⟨JSNum.fin (-2500), JSNum.fin 2500, JSNum.fin (-2500), JSNum.fin 2500⟩
    else
      ⟨JSNum.fin 0, JSNum.fin 5000, JSNum.fin 0, JSNum.fin 5000⟩

/-- sanitizedDomains (lines 696-703): nudge each max up to at least
min + 1.  The ?? fallbacks of the source are dead in the typed model,
where every field is present. -/
def sanitizedDomains (d : Domains) : Domains :=
  { xMin := d.xMin
    xMax := JSNum.jmax d.xMax (JSNum.add d.xMin (JSNum.fin 1))
    yMin := d.yMin
    yMax := JSNum.jmax d.yMax (JSNum.add d.yMin (JSNum.fin 1)) }

/-!
Embedding of the overlap detection (src/unnamed/part_000: the rectangle
test doRectanglesOverlap at lines 55-65 and detectOverlaps at lines
1282-1309).  Rectangle coordinates are the finite pixel positions and
sizes of mounted frames, so they are modelled as rationals.
-/

/-- Pixel rectangle { x, y, width, height }. -/
structure Rect where
  x : ℚ
  y : ℚ
  width : ℚ
  height : ℚ
deriving DecidableEq, Repr

/-- Strict axis-aligned rectangle intersection test (lines 55-65). -/
def doRectanglesOverlap (rect1 rect2 : Rect) : Bool :=
  decide (rect1.x < rect2.x + rect2.width) &&
  decide (rect1.x + rect1.width > rect2.x) &&
  decide (rect1.y < rect2.y + rect2.height) &&
  decide (rect1.y + rect1.height > rect2.y)

/-- Entry of the allGraphs collection as read by detectOverlaps:
identifier, position, size and z-order. -/
structure GraphEntry where
  id : String
  x : ℚ
  y : ℚ
  width : ℚ
  height : ℚ
  zIndex : ℚ
deriving DecidableEq, Repr

/-- Bounding rectangle of a graph entry. -/
def GraphEntry.rect (g : GraphEntry) : Rect := ⟨g.x, g.y, g.width, g.height⟩

/-- detectOverlaps (lines 1282-1309): empty result when the collection
has at most one element, otherwise the candidates that are not the
current graph, have strictly lower zIndex, and whose rectangle overlaps
the current one. -/
def detectOverlaps (allGraphs : List GraphEntry) (id : String)
    (position : ℚ × ℚ) (size : ℚ × ℚ) (zIndex : ℚ) : List GraphEntry :=
  if allGraphs.length ≤ 1 then []
  else
    let currentRect : Rect := ⟨position.1, position.2, size.1, size.2⟩
    allGraphs.filter (fun graph =>
      decide (graph.id ≠ id) &&
      decide (graph.zIndex < zIndex) &&
      doRectanglesOverlap currentRect graph.rect)

/-!
Embedding of the metadata-attachment step of handleDumpPoints
(src/unnamed/part_006, lines 775-784): the merge handler decorates the
transformed points before adding them to the target graph's data.  The
timestamp new Date().toISOString() is an external input, passed as the
dumpedAt argument; on the _originalColor field the JavaScript
expression point._originalColor || sourceGraph.color is modelled as the
fallback for a missing property (no point carries an empty-string
color). -/
def pointsWithMetadata (sourceTitle fromGraphId sourceColor dumpedAt : String)
    (transformedPoints : List JSPoint) : List JSPoint :=
  transformedPoints.map (fun point =>
    { point with
      source := some sourceTitle
      sourceId := some fromGraphId
      dumpedAt := some dumpedAt
      originalColor := some (point.originalColor.getD sourceColor)
      isDumped := some true })

/-!
Shared concrete fixtures for evaluated instances: the default domain
{0,5000,0,5000}, and frames at position (0,0) with the application's
initial size 500 x 400, rotation 0, no element measurement.
-/

/-- Default first-quadrant domain. -/
def stdDomains : Domains :=
  ⟨JSNum.fin 0, JSNum.fin 5000, JSNum.fin 0, JSNum.fin 5000⟩

/-- Standard source frame: position (0,0), size 500 x 400, rotation 0. -/
def stdSourceGraph : SourceGraphArg :=
  { position := ⟨JSNum.fin 0, JSNum.fin 0⟩
    size := ⟨JSNum.fin 500, JSNum.fin 400⟩
    color := "#3b82f6"
    rotation := JSNum.fin 0 }

/-- Standard target frame: position (0,0), size 500 x 400, rotation 0. -/
def stdTargetGraph : TargetGraphArg :=
  { position := ⟨JSNum.fin 0, JSNum.fin 0⟩
    size := ⟨JSNum.fin 500, JSNum.fin 400⟩
    rotation := JSNum.fin 0 }

/-- C10: transformPoints returns exactly one output point per input
point, in input order, for every input list (including lists with NaN
or non-finite coordinates): the output length equals the input length
and the i-th output is the per-point transform of the i-th input. -/
theorem c10_one_output_per_input (cosQ sinQ : ℚ → ℚ) (points : List JSPoint)
    (fromDomains toDomains : Domains)
    (sourceGraph : SourceGraphArg) (targetGraph : TargetGraphArg) :
    (Transform.transformPoints cosQ sinQ points fromDomains toDomains
        sourceGraph targetGraph).length = points.length ∧
    ∀ i : ℕ,
      (Transform.transformPoints cosQ sinQ points fromDomains toDomains
          sourceGraph targetGraph)[i]? =
        points[i]?.map
          (Transform.transformPoint cosQ sinQ fromDomains toDomains sourceGraph targetGraph) := by
  constructor
  · simp [Transform.transformPoints]
  · intro i
    simp [Transform.transformPoints, List.getElem?_map]

/-- Helper for C9: a NaN x coordinate propagates through every step of
the per-point transform to the output x, for arbitrary domains, frames
and trigonometric values. -/
theorem transformPoint_nan_x (cosQ sinQ : ℚ → ℚ)
    (fromDomains toDomains : Domains)
    (sourceGraph : SourceGraphArg) (targetGraph : TargetGraphArg)
    (p : JSPoint) (hx : p.x = JSNum.nan) :
    (Transform.transformPoint cosQ sinQ fromDomains toDomains sourceGraph targetGraph p).x
      = JSNum.nan := by
  simp only [Transform.transformPoint, hx]
  split <;> split <;> simp

/-- Helper for C9: a NaN y coordinate propagates to the output y. -/
theorem transformPoint_nan_y (cosQ sinQ : ℚ → ℚ)
    (fromDomains toDomains : Domains)
    (sourceGraph : SourceGraphArg) (targetGraph : TargetGraphArg)
    (p : JSPoint) (hy : p.y = JSNum.nan) :
    (Transform.transformPoint cosQ sinQ fromDomains toDomains sourceGraph targetGraph p).y
      = JSNum.nan := by
  simp only [Transform.transformPoint, hy]
  split <;> split <;> simp

/-- C9: a point whose x or y is NaN is not dropped: transformPoints
keeps one output per input, the NaN point included; its transform is
computed independently of the rest of the batch (so the batch is not
corrupted), and its NaN coordinate propagates to the output
coordinate. -/
theorem c9_nan_point_kept_not_dropped (cosQ sinQ : ℚ → ℚ) (points : List JSPoint)
    (fromDomains toDomains : Domains)
    (sourceGraph : SourceGraphArg) (targetGraph : TargetGraphArg)
    (i : ℕ) (p : JSPoint) (hi : points[i]? = some p) :
    (Transform.transformPoints cosQ sinQ points fromDomains toDomains
        sourceGraph targetGraph)[i]? =
      some (Transform.transformPoint cosQ sinQ fromDomains toDomains sourceGraph targetGraph p) ∧
    (p.x = JSNum.nan →
      (Transform.transformPoint cosQ sinQ fromDomains toDomains sourceGraph targetGraph p).x
        = JSNum.nan) ∧
    (p.y = JSNum.nan →
      (Transform.transformPoint cosQ sinQ fromDomains toDomains sourceGraph targetGraph p).y
        = JSNum.nan) := by
  refine ⟨?_,
    fun hx => transformPoint_nan_x cosQ sinQ fromDomains toDomains sourceGraph targetGraph p hx,
    fun hy => transformPoint_nan_y cosQ sinQ fromDomains toDomains sourceGraph targetGraph p hy⟩
  simp [Transform.transformPoints, List.getElem?_map, hi]

/-- Witness for C9 at a concrete input: the list holds a single point
with NaN x, and its output x is NaN. -/
theorem c9_witness :
    (Transform.transformPoints zeroTrig zeroTrig
        [{ x := JSNum.nan, y := JSNum.fin 1 }] stdDomains stdDomains
        stdSourceGraph stdTargetGraph)[0]? =
      some (Transform.transformPoint zeroTrig zeroTrig stdDomains stdDomains
        stdSourceGraph stdTargetGraph { x := JSNum.nan, y := JSNum.fin 1 }) ∧
    ({ x := JSNum.nan, y := JSNum.fin 1 : JSPoint }.x = JSNum.nan →
      (Transform.transformPoint zeroTrig zeroTrig stdDomains stdDomains
        stdSourceGraph stdTargetGraph { x := JSNum.nan, y := JSNum.fin 1 }).x = JSNum.nan) ∧
    ({ x := JSNum.nan, y := JSNum.fin 1 : JSPoint }.y = JSNum.nan →
      (Transform.transformPoint zeroTrig zeroTrig stdDomains stdDomains
        stdSourceGraph stdTargetGraph { x := JSNum.nan, y := JSNum.fin 1 }).y = JSNum.nan) :=
  c9_nan_point_kept_not_dropped zeroTrig zeroTrig
    [{ x := JSNum.nan, y := JSNum.fin 1 }] stdDomains stdDomains
    stdSourceGraph stdTargetGraph 0 { x := JSNum.nan, y := JSNum.fin 1 } rfl

/-- Counterexample for C9 as stated: with a NaN point in the batch the
output still has one point per input (nothing is skipped or dropped),
and the NaN point appears in the output with NaN x. -/
theorem c9_counterexample :
    (Transform.transformPoints zeroTrig zeroTrig
        [{ x := JSNum.nan, y := JSNum.fin 2500 },
         { x := JSNum.fin 2500, y := JSNum.fin 2500 }]
        stdDomains stdDomains stdSourceGraph stdTargetGraph).length = 2 ∧
    (Transform.transformPoints zeroTrig zeroTrig
        [{ x := JSNum.nan, y := JSNum.fin 2500 },
         { x := JSNum.fin 2500, y := JSNum.fin 2500 }]
        stdDomains stdDomains stdSourceGraph stdTargetGraph).map JSPoint.x =
      [JSNum.nan, JSNum.fin 2500] := by
  constructor
  · simp [Transform.transformPoints]
  · simp only [Transform.transformPoints, Transform.transformPoint, List.map,
      stdDomains, stdSourceGraph, stdTargetGraph]
    norm_num [JSNum.div, JSNum.orZero, jsPI, max_def, min_def]

/-- C3 (amended): each output of transformPoints is a fresh point whose
x and y are the clamped transform result, carrying the original x, the
original y and the source graph's render color (also set as the point's
color); all other metadata fields pass through unchanged.  The dumped
flag and the source-frame reference are not attached here: they are
added by the pointsWithMetadata step of handleDumpPoints before the
points are merged into the target graph. -/
theorem c3_metadata_attachment (cosQ sinQ : ℚ → ℚ)
    (fromDomains toDomains : Domains)
    (sourceGraph : SourceGraphArg) (targetGraph : TargetGraphArg)
    (p : JSPoint) (title fid c ts : String) (pts : List JSPoint) :
    (∃ nX nY,
      (Transform.transformPoint cosQ sinQ fromDomains toDomains sourceGraph targetGraph p).x
        = JSNum.jmax toDomains.xMin (JSNum.jmin toDomains.xMax nX) ∧
      (Transform.transformPoint cosQ sinQ fromDomains toDomains sourceGraph targetGraph p).y
        = JSNum.jmax toDomains.yMin (JSNum.jmin toDomains.yMax nY)) ∧
    (Transform.transformPoint cosQ sinQ fromDomains toDomains sourceGraph targetGraph p).originalX
      = some p.x ∧
    (Transform.transformPoint cosQ sinQ fromDomains toDomains sourceGraph targetGraph p).originalY
      = some p.y ∧
    (Transform.transformPoint cosQ sinQ fromDomains toDomains sourceGraph targetGraph p).originalColor
      = some sourceGraph.color ∧
    (Transform.transformPoint cosQ sinQ fromDomains toDomains sourceGraph targetGraph p).color
      = some sourceGraph.color ∧
    (Transform.transformPoint cosQ sinQ fromDomains toDomains sourceGraph targetGraph p).isDumped
      = p.isDumped ∧
    (Transform.transformPoint cosQ sinQ fromDomains toDomains sourceGraph targetGraph p).sourceId
      = p.sourceId ∧
    (pointsWithMetadata title fid c ts pts).map JSPoint.isDumped
      = pts.map (fun _ => some true) ∧
    (pointsWithMetadata title fid c ts pts).map JSPoint.sourceId
      = pts.map (fun _ => some fid) ∧
    (pointsWithMetadata title fid c ts pts).map JSPoint.x = pts.map JSPoint.x := by
  refine ⟨⟨_, _, rfl, rfl⟩, rfl, rfl, rfl, rfl, rfl, rfl, ?_, ?_, ?_⟩ <;>
    simp [pointsWithMetadata, List.map_map, Function.comp_def]

/-- Counterexample for C3 as stated: on a point carrying no metadata,
transformPoints itself attaches neither the dumped flag nor the
source-frame reference (both remain absent in its output). -/
theorem c3_counterexample :
    (Transform.transformPoints zeroTrig zeroTrig
        [{ x := JSNum.fin 2500, y := JSNum.fin 2500 }]
        stdDomains stdDomains stdSourceGraph stdTargetGraph).map JSPoint.isDumped
      = [none] ∧
    (Transform.transformPoints zeroTrig zeroTrig
        [{ x := JSNum.fin 2500, y := JSNum.fin 2500 }]
        stdDomains stdDomains stdSourceGraph stdTargetGraph).map JSPoint.sourceId
      = [none] := by
  constructor <;> simp [Transform.transformPoints, Transform.transformPoint]

@[simp] theorem jsMinList_nil : jsMinList [] = JSNum.inf := rfl

@[simp] theorem jsMinList_cons (a : JSNum) (t : List JSNum) :
    jsMinList (a :: t) = JSNum.jmin a (jsMinList t) := rfl

/-- Helper: over a list of finite values, the spread minimum is either
Infinity (empty list) or a finite value. -/
theorem jsMinList_finite_shape (l : List JSNum)
    (hfin : ∀ v ∈ l, ∃ q, v = JSNum.fin q) :
    jsMinList l = JSNum.inf ∨ ∃ m, jsMinList l = JSNum.fin m := by
  induction l with
  | nil => exact Or.inl rfl
  | cons a t ih =>
    obtain ⟨qa, ha⟩ := hfin a (List.mem_cons_self a t)
    rcases ih (fun v hv => hfin v (List.mem_cons_of_mem a hv)) with h | ⟨m, h⟩
    · exact Or.inr ⟨qa, by rw [jsMinList_cons, ha, h]; rfl⟩
    · exact Or.inr ⟨min qa m, by rw [jsMinList_cons, ha, h]; rfl⟩

/-- Helper: over a list of finite nonnegative values, the spread
minimum never tests strictly below zero. -/
theorem jsMinList_nonneg (l : List JSNum)
    (hfin : ∀ v ∈ l, ∃ q, v = JSNum.fin q ∧ 0 ≤ q) :
    JSNum.jlt (jsMinList l) (JSNum.fin 0) = false := by
  have shape : jsMinList l = JSNum.inf ∨ ∃ m, jsMinList l = JSNum.fin m ∧ 0 ≤ m := by
    induction l with
    | nil => exact Or.inl rfl
    | cons a t ih =>
      obtain ⟨qa, ha, hqa⟩ := hfin a (List.mem_cons_self a t)
      rcases ih (fun v hv => hfin v (List.mem_cons_of_mem a hv)) with h | ⟨m, h, hm⟩
      · exact Or.inr ⟨qa, by rw [jsMinList_cons, ha, h]; rfl, hqa⟩
      · exact Or.inr ⟨min qa m, by rw [jsMinList_cons, ha, h]; rfl, le_min hqa hm⟩
  rcases shape with h | ⟨m, h, hm⟩
  · rw [h]; rfl
  · rw [h]
    simp [JSNum.jlt, not_lt]
    exact hm

/-- Helper: a finite member bounds the spread minimum of an all-finite
list from above. -/
theorem jsMinList_le_mem (l : List JSNum) (q : ℚ)
    (hfin : ∀ v ∈ l, ∃ r, v = JSNum.fin r)
    (hq : JSNum.fin q ∈ l) :
    ∃ m, jsMinList l = JSNum.fin m ∧ m ≤ q := by
  induction l with
  | nil => cases hq
  | cons a t ih =>
    obtain ⟨qa, ha⟩ := hfin a (List.mem_cons_self a t)
    have hfint : ∀ v ∈ t, ∃ r, v = JSNum.fin r :=
      fun v hv => hfin v (List.mem_cons_of_mem _ hv)
    rcases List.mem_cons.mp hq with heq | hmem
    · have hqq : q = qa := by
        rw [ha] at heq
        injection heq
      rcases jsMinList_finite_shape t hfint with h | ⟨m, h⟩
      · exact ⟨qa, by rw [jsMinList_cons, ha, h]; rfl, le_of_eq hqq.symm⟩
      · exact ⟨min qa m, by rw [jsMinList_cons, ha, h]; rfl,
          hqq ▸ min_le_left _ _⟩
    · obtain ⟨m, hmt, hle⟩ := ih hfint hmem
      exact ⟨min qa m, by rw [jsMinList_cons, ha, hmt]; rfl,
        le_trans (min_le_right _ _) hle⟩

/-- Helper: a list of points with finite coordinates passes the
validity filter unchanged. -/
theorem filter_isValidPoint_eq_self (data : List JSPoint)
    (hfin : ∀ p ∈ data, (∃ q, p.x = JSNum.fin q) ∧ (∃ q, p.y = JSNum.fin q)) :
    data.filter isValidPoint = data := by
  refine List.filter_eq_self.mpr (fun p hp => ?_)
  obtain ⟨⟨qx, hx⟩, ⟨qy, hy⟩⟩ := hfin p hp
  simp [isValidPoint, hx, hy, JSNum.isFinite]

/-- C5: the domain classifier returns the fallback domain
{0,5000,0,5000} for an empty collection; for a collection of points
with finite coordinates it classifies first-quadrant mode (negative
check false) with domain {0,5000,0,5000} when every coordinate is
nonnegative, and four-quadrant mode (negative check true) with domain
{-2500,2500,-2500,2500} when some coordinate is negative. -/
theorem c5_domain_classification (data : List JSPoint)
    (hfin : ∀ p ∈ data, (∃ q, p.x = JSNum.fin q) ∧ (∃ q, p.y = JSNum.fin q)) :
    (data = [] →
      calculatedDomains data =
        ⟨JSNum.fin 0, JSNum.fin 5000, JSNum.fin 0, JSNum.fin 5000⟩) ∧
    ((∀ p ∈ data, ∀ q : ℚ, (p.x = JSNum.fin q → 0 ≤ q) ∧ (p.y = JSNum.fin q → 0 ≤ q)) →
      hasNegativeValues (data.filter isValidPoint) = false ∧
      calculatedDomains data =
        ⟨JSNum.fin 0, JSNum.fin 5000, JSNum.fin 0, JSNum.fin 5000⟩) ∧
    ((∃ p ∈ data, ∃ q : ℚ, ((p.x = JSNum.fin q ∨ p.y = JSNum.fin q) ∧ q < 0)) →
      hasNegativeValues (data.filter isValidPoint) = true ∧
      calculatedDomains data =
        ⟨JSNum.fin (-2500), JSNum.fin 2500, JSNum.fin (-2500), JSNum.fin 2500⟩) := by
  have hfilter : data.filter isValidPoint = data := filter_isValidPoint_eq_self data hfin
  refine ⟨fun hempty => by simp [calculatedDomains, hempty], ?_, ?_⟩
  · intro hnonneg
    have hneg : hasNegativeValues data = false := by
      unfold hasNegativeValues
      have hx : JSNum.jlt (jsMinList (data.map JSPoint.x)) (JSNum.fin 0) = false := by
        refine jsMinList_nonneg _ (fun v hv => ?_)
        obtain ⟨p, hp, rfl⟩ := List.mem_map.mp hv
        obtain ⟨⟨qx, hqx⟩, _⟩ := hfin p hp
        exact ⟨qx, hqx, ((hnonneg p hp qx).1 hqx)⟩
      have hy : JSNum.jlt (jsMinList (data.map JSPoint.y)) (JSNum.fin 0) = false := by
        refine jsMinList_nonneg _ (fun v hv => ?_)
        obtain ⟨p, hp, rfl⟩ := List.mem_map.mp hv
        obtain ⟨_, ⟨qy, hqy⟩⟩ := hfin p hp
        exact ⟨qy, hqy, ((hnonneg p hp qy).2 hqy)⟩
      rw [hx, hy]
      rfl
    refine ⟨by rw [hfilter]; exact hneg, ?_⟩
    by_cases hd : data = []
    · subst hd
      simp [calculatedDomains]
    · have hempty : data.isEmpty = false := by
        rw [List.isEmpty_eq_false_iff_exists_mem]
        exact List.exists_mem_of_ne_nil data hd
      unfold calculatedDomains
      simp [hempty, hfilter, hneg]
  · intro hnegex
    obtain ⟨p, hp, q, hcoord, hqneg⟩ := hnegex
    have hneg : hasNegativeValues data = true := by
      unfold hasNegativeValues
      rcases hcoord with hx | hy
      · have hmem : JSNum.fin q ∈ data.map JSPoint.x :=
          List.mem_map.mpr ⟨p, hp, hx⟩
        have hallfin : ∀ v ∈ data.map JSPoint.x, ∃ r, v = JSNum.fin r := by
          intro v hv
          obtain ⟨p', hp', rfl⟩ := List.mem_map.mp hv
          exact (hfin p' hp').1
        obtain ⟨m, hm, hle⟩ := jsMinList_le_mem _ q hallfin hmem
        rw [hm]
        simp [JSNum.jlt]
        exact Or.inl (lt_of_le_of_lt hle hqneg)
      · have hmem : JSNum.fin q ∈ data.map JSPoint.y :=
          List.mem_map.mpr ⟨p, hp, hy⟩
        have hallfin : ∀ v ∈ data.map JSPoint.y, ∃ r, v = JSNum.fin r := by
          intro v hv
          obtain ⟨p', hp', rfl⟩ := List.mem_map.mp hv
          exact (hfin p' hp').2
        obtain ⟨m, hm, hle⟩ := jsMinList_le_mem _ q hallfin hmem
        rw [hm]
        simp [JSNum.jlt]
        exact Or.inr (lt_of_le_of_lt hle hqneg)
    have hempty : data.isEmpty = false := by
      rw [List.isEmpty_eq_false_iff_exists_mem]
      exact ⟨p, hp⟩
    refine ⟨by rw [hfilter]; exact hneg, ?_⟩
    unfold calculatedDomains
    simp [hempty, hfilter, hneg]

/-- Witness for C5 at a concrete input: a single point (1, 2) with all
coordinates nonnegative classifies as first-quadrant with domain
{0,5000,0,5000}. -/
theorem c5_witness :
    (([{ x := JSNum.fin 1, y := JSNum.fin 2 }] : List JSPoint) = [] →
      calculatedDomains [{ x := JSNum.fin 1, y := JSNum.fin 2 }] =
        ⟨JSNum.fin 0, JSNum.fin 5000, JSNum.fin 0, JSNum.fin 5000⟩) ∧
    ((∀ p ∈ ([{ x := JSNum.fin 1, y := JSNum.fin 2 }] : List JSPoint), ∀ q : ℚ,
        (p.x = JSNum.fin q → 0 ≤ q) ∧ (p.y = JSNum.fin q → 0 ≤ q)) →
      hasNegativeValues (([{ x := JSNum.fin 1, y := JSNum.fin 2 }] : List JSPoint).filter isValidPoint) = false ∧
      calculatedDomains [{ x := JSNum.fin 1, y := JSNum.fin 2 }] =
        ⟨JSNum.fin 0, JSNum.fin 5000, JSNum.fin 0, JSNum.fin 5000⟩) ∧
    ((∃ p ∈ ([{ x := JSNum.fin 1, y := JSNum.fin 2 }] : List JSPoint), ∃ q : ℚ,
        ((p.x = JSNum.fin q ∨ p.y = JSNum.fin q) ∧ q < 0)) →
      hasNegativeValues (([{ x := JSNum.fin 1, y := JSNum.fin 2 }] : List JSPoint).filter isValidPoint) = true ∧
      calculatedDomains [{ x := JSNum.fin 1, y := JSNum.fin 2 }] =
        ⟨JSNum.fin (-2500), JSNum.fin 2500, JSNum.fin (-2500), JSNum.fin 2500⟩) :=
  c5_domain_classification [{ x := JSNum.fin 1, y := JSNum.fin 2 }]
    (by intro p hp; simp at hp; subst hp; exact ⟨⟨1, rfl⟩, ⟨2, rfl⟩⟩)

/-- C6: detectOverlaps returns exactly the candidates that are not the
query graph, have strictly lower zIndex, and whose unrotated bounding
rectangle passes the strict intersection test against the query
rectangle (rotation never enters the test); moreover the pairwise
rectangle test is symmetric in its two arguments.  The collection is
the application's allGraphs list, which contains the query graph
itself. -/
theorem c6_overlap_detection (allGraphs : List GraphEntry) (id : String)
    (position size : ℚ × ℚ) (zIndex : ℚ)
    (hself : ∃ g ∈ allGraphs, g.id = id) :
    (∀ g, g ∈ detectOverlaps allGraphs id position size zIndex ↔
      (g ∈ allGraphs ∧ g.id ≠ id ∧ g.zIndex < zIndex ∧
        doRectanglesOverlap ⟨position.1, position.2, size.1, size.2⟩ g.rect = true)) ∧
    (∀ r1 r2, doRectanglesOverlap r1 r2 = doRectanglesOverlap r2 r1) := by
  constructor
  · intro g
    unfold detectOverlaps
    by_cases hlen : allGraphs.length ≤ 1
    · simp only [hlen, if_true]
      constructor
      · intro h
        cases h
      · rintro ⟨hg, hne, -, -⟩
        obtain ⟨s, hs, hsid⟩ := hself
        interval_cases h : allGraphs.length
        · rw [List.length_eq_zero] at h
          subst h
          cases hg
        · obtain ⟨a, ha⟩ := List.length_eq_one.mp h
          subst ha
          simp at hg hs
          subst hg
          subst hs
          exact (hne hsid).elim
    · simp only [hlen, if_false]
      simp [List.mem_filter, and_assoc]
  · intro r1 r2
    simp only [doRectanglesOverlap, gt_iff_lt]
    rcases lt_or_le r1.x (r2.x + r2.width) with h1 | h1 <;>
      rcases lt_or_le r2.x (r1.x + r1.width) with h2 | h2 <;>
        rcases lt_or_le r1.y (r2.y + r2.height) with h3 | h3 <;>
          rcases lt_or_le r2.y (r1.y + r1.height) with h4 | h4 <;>
            simp [h1, h2, h3, h4, not_lt.mpr]

/-- Witness for C6 at a concrete input: query graph "a" (zIndex 5) and
one overlapping candidate "b" with lower zIndex. -/
theorem c6_witness :
    (∀ g, g ∈ detectOverlaps
        [⟨"a", 0, 0, 100, 100, 5⟩, ⟨"b", 50, 50, 100, 100, 1⟩] "a" (0, 0) (100, 100) 5 ↔
      (g ∈ [⟨"a", 0, 0, 100, 100, 5⟩, ⟨"b", 50, 50, 100, 100, 1⟩] ∧ g.id ≠ "a" ∧ g.zIndex < 5 ∧
        doRectanglesOverlap ⟨0, 0, 100, 100⟩ g.rect = true)) ∧
    (∀ r1 r2, doRectanglesOverlap r1 r2 = doRectanglesOverlap r2 r1) :=
  c6_overlap_detection
    [⟨"a", 0, 0, 100, 100, 5⟩, ⟨"b", 50, 50, 100, 100, 1⟩] "a" (0, 0) (100, 100) 5
    ⟨⟨"a", 0, 0, 100, 100, 5⟩, by simp, rfl⟩

/-- C8 (amended): degenerate domains are repaired where domains are
sanitized for rendering: sanitizedDomains replaces a max equal to the
min by min + 1, and it leaves the classifier's own output domains
unchanged (they are never degenerate).  transformPoints itself performs
no such repair: called directly with a source domain whose xMax equals
its xMin it divides by the zero span, so the output x of a point sitting
at that bound is NaN (no exception, but no repair either), whereas the
same call on the sanitized domain yields a finite coordinate. -/
theorem c8_degenerate_domain_repair (d : Domains) (qx qy : ℚ)
    (hx : d.xMin = JSNum.fin qx) (hx' : d.xMax = JSNum.fin qx)
    (hy : d.yMin = JSNum.fin qy) (hy' : d.yMax = JSNum.fin qy) :
    (sanitizedDomains d).xMax = JSNum.fin (qx + 1) ∧
    (sanitizedDomains d).xMin = JSNum.fin qx ∧
    (sanitizedDomains d).yMax = JSNum.fin (qy + 1) ∧
    (sanitizedDomains d).yMin = JSNum.fin qy ∧
    (∀ data : List JSPoint,
      sanitizedDomains (calculatedDomains data) = calculatedDomains data) ∧
    (Transform.transformPoints zeroTrig zeroTrig
        [{ x := JSNum.fin 0, y := JSNum.fin 2500 }]
        ⟨JSNum.fin 0, JSNum.fin 0, JSNum.fin 0, JSNum.fin 5000⟩ stdDomains
        stdSourceGraph stdTargetGraph).map JSPoint.x = [JSNum.nan] ∧
    (Transform.transformPoints zeroTrig zeroTrig
        [{ x := JSNum.fin 0, y := JSNum.fin 2500 }]
        (sanitizedDomains ⟨JSNum.fin 0, JSNum.fin 0, JSNum.fin 0, JSNum.fin 5000⟩) stdDomains
        stdSourceGraph stdTargetGraph).map JSPoint.x = [JSNum.fin 0] := by
  refine ⟨?_, ?_, ?_, ?_, ?_, ?_, ?_⟩
  · simp [sanitizedDomains, hx, hx']
  · simp [sanitizedDomains, hx]
  · simp [sanitizedDomains, hy, hy']
  · simp [sanitizedDomains, hy]
  · intro data
    have hcases : calculatedDomains data =
          ⟨JSNum.fin 0, JSNum.fin 5000, JSNum.fin 0, JSNum.fin 5000⟩ ∨
        calculatedDomains data =
          ⟨JSNum.fin (-2500), JSNum.fin 2500, JSNum.fin (-2500), JSNum.fin 2500⟩ := by
      simp only [calculatedDomains]
      split
      · exact Or.inl rfl
      · split
        · exact Or.inl rfl
        · split
          · exact Or.inr rfl
          · exact Or.inl rfl
    rcases hcases with h | h <;> rw [h] <;> norm_num [sanitizedDomains, max_def]
  · simp only [Transform.transformPoints, Transform.transformPoint, List.map,
      stdDomains, stdSourceGraph, stdTargetGraph]
    norm_num [JSNum.div, JSNum.orZero, jsPI, max_def, min_def]
  · simp only [Transform.transformPoints, Transform.transformPoint, List.map,
      stdDomains, stdSourceGraph, stdTargetGraph, sanitizedDomains]
    norm_num [JSNum.div, JSNum.orZero, jsPI, max_def, min_def, JSNum.jmax]

/-- Witness for C8 at a concrete input: the degenerate domain with
xMin = xMax = 3 and yMin = yMax = 7 is repaired by sanitizedDomains. -/
theorem c8_witness :
    (sanitizedDomains ⟨JSNum.fin 3, JSNum.fin 3, JSNum.fin 7, JSNum.fin 7⟩).xMax
      = JSNum.fin (3 + 1) ∧
    (sanitizedDomains ⟨JSNum.fin 3, JSNum.fin 3, JSNum.fin 7, JSNum.fin 7⟩).xMin
      = JSNum.fin 3 ∧
    (sanitizedDomains ⟨JSNum.fin 3, JSNum.fin 3, JSNum.fin 7, JSNum.fin 7⟩).yMax
      = JSNum.fin (7 + 1) ∧
    (sanitizedDomains ⟨JSNum.fin 3, JSNum.fin 3, JSNum.fin 7, JSNum.fin 7⟩).yMin
      = JSNum.fin 7 ∧
    (∀ data : List JSPoint,
      sanitizedDomains (calculatedDomains data) = calculatedDomains data) ∧
    (Transform.transformPoints zeroTrig zeroTrig
        [{ x := JSNum.fin 0, y := JSNum.fin 2500 }]
        ⟨JSNum.fin 0, JSNum.fin 0, JSNum.fin 0, JSNum.fin 5000⟩ stdDomains
        stdSourceGraph stdTargetGraph).map JSPoint.x = [JSNum.nan] ∧
    (Transform.transformPoints zeroTrig zeroTrig
        [{ x := JSNum.fin 0, y := JSNum.fin 2500 }]
        (sanitizedDomains ⟨JSNum.fin 0, JSNum.fin 0, JSNum.fin 0, JSNum.fin 5000⟩) stdDomains
        stdSourceGraph stdTargetGraph).map JSPoint.x = [JSNum.fin 0] :=
  c8_degenerate_domain_repair ⟨JSNum.fin 3, JSNum.fin 3, JSNum.fin 7, JSNum.fin 7⟩ 3 7
    rfl rfl rfl rfl

/-- Counterexample for C8 as stated: transformPoints does not repair a
degenerate source domain.  Called with xMin = xMax = 5, the point at
that bound comes out with NaN x, while the same call on the repaired
domain (xMax replaced by xMin + 1) yields the finite coordinate 0, so
the two calls disagree: no substitution of xMin + 1 happens inside
transformPoints. -/
theorem c8_counterexample :
    (Transform.transformPoints zeroTrig zeroTrig
        [{ x := JSNum.fin 5, y := JSNum.fin 2500 }]
        ⟨JSNum.fin 5, JSNum.fin 5, JSNum.fin 0, JSNum.fin 5000⟩ stdDomains
        stdSourceGraph stdTargetGraph).map JSPoint.x = [JSNum.nan] ∧
    (Transform.transformPoints zeroTrig zeroTrig
        [{ x := JSNum.fin 5, y := JSNum.fin 2500 }]
        ⟨JSNum.fin 5, JSNum.fin 6, JSNum.fin 0, JSNum.fin 5000⟩ stdDomains
        stdSourceGraph stdTargetGraph).map JSPoint.x = [JSNum.fin 0] ∧
    JSNum.nan ≠ JSNum.fin 0 := by
  refine ⟨?_, ?_, by simp⟩ <;>
    (simp only [Transform.transformPoints, Transform.transformPoint, List.map,
      stdDomains, stdSourceGraph, stdTargetGraph];
     norm_num [JSNum.div, JSNum.orZero, jsPI, max_def, min_def])

/-- Helper: rounding to 10 decimal places moves a value by at most half
of 10^-10. -/
theorem abs_round10_sub_le (q : ℚ) : |round10 q - q| ≤ 1 / 20000000000 := by
  unfold round10
  have h := abs_sub_round (q * 10000000000)
  have heq : (↑(round (q * 10000000000)) : ℚ) / 10000000000 - q =
      ((↑(round (q * 10000000000)) : ℚ) - q * 10000000000) / 10000000000 := by
    field_simp
    ring
  rw [heq, abs_div, abs_of_pos (by norm_num : (0:ℚ) < 10000000000), abs_sub_comm]
  linarith

/-- C4 (amended): the tick generator first forces the span to at least
1 (safeMax = Math.max(max, min + 1), applied always, not only when
max <= min, so a span below 1 is widened); it then returns exactly
intervalCount + 1 values ([min, safeMax] when intervalCount is 1), the
i-th value within half a rounding unit of min + i * (safeMax - min) /
intervalCount (so the first is ~min and the last ~safeMax, evenly
spaced), and the sequence is strictly increasing for any interval count
up to 10^9 (beyond that the 10-decimal rounding could merge
neighbouring ticks).  No division by zero occurs for any max <= min. -/
theorem c4_tick_generation (min max : ℚ) (n : ℕ) (hn : 1 ≤ n) :
    (generateTicks min max n).length = n + 1 ∧
    (∀ i : ℕ, ∀ t : ℚ, (generateTicks min max n)[i]? = some t →
      |t - (min + (Max.max max (min + 1) - min) / n * i)| ≤ 1 / 10000000000) ∧
    (n ≤ 1000000000 → List.Chain' (· < ·) (generateTicks min max n)) := by
  have hsafe : (1:ℚ) ≤ Max.max max (min + 1) - min := by
    have := le_max_right max (min + 1)
    linarith
  by_cases h1 : n ≤ 1
  · have hn1 : n = 1 := le_antisymm h1 hn
    subst hn1
    refine ⟨by simp [generateTicks], ?_, ?_⟩
    · intro i t ht
      simp only [generateTicks, if_pos (le_refl 1)] at ht
      match i with
      | 0 =>
        simp at ht
        subst ht
        simp
      | 1 =>
        simp at ht
        subst ht
        have heq : min + (Max.max max (min + 1) - min) / ((1:ℕ):ℚ) * ((1:ℕ):ℚ)
            = Max.max max (min + 1) := by
          push_cast
          ring
        rw [heq]
        simp
      | (k + 2) =>
        simp at ht
    · intro _
      simp only [generateTicks, if_pos (le_refl 1)]
      refine List.chain'_cons.mpr ⟨?_, List.chain'_singleton _⟩
      linarith
  · push_neg at h1
    have hnotle : ¬ n ≤ 1 := by omega
    have hnq : (0:ℚ) < (n:ℚ) := by positivity
    have hstep : 1 / (n:ℚ) ≤ (Max.max max (min + 1) - min) / n := by
      gcongr
    refine ⟨?_, ?_, ?_⟩
    · simp [generateTicks, hnotle]
    · intro i t ht
      simp only [generateTicks, if_neg hnotle, List.getElem?_map] at ht
      by_cases hi : i < n + 1
      · rw [List.getElem?_range hi] at ht
        simp only [Option.map_some'] at ht
        obtain rfl : round10 (min + (Max.max max (min + 1) - min) / ↑n * ↑i) = t :=
          Option.some.inj ht
        calc |round10 (min + (Max.max max (min + 1) - min) / ↑n * ↑i)
              - (min + (Max.max max (min + 1) - min) / ↑n * ↑i)| ≤ 1 / 20000000000 :=
            abs_round10_sub_le _
          _ ≤ 1 / 10000000000 := by norm_num
      · rw [List.getElem?_eq_none (by simpa using not_lt.mp hi)] at ht
        simp at ht
    · intro hbound
      simp only [generateTicks, if_neg hnotle]
      rw [List.chain'_iff_get]
      intro i hi
      simp only [List.length_map, List.length_range] at hi
      simp only [List.get_eq_getElem, List.getElem_map, List.getElem_range]
      have hnb : (n:ℚ) ≤ 1000000000 := by exact_mod_cast hbound
      have hsmall : 1 / 1000000000 ≤ (1:ℚ) / n :=
        one_div_le_one_div_of_le hnq hnb
      have h1b := abs_round10_sub_le (min + (Max.max max (min + 1) - min) / ↑n * (i:ℚ))
      have h2b := abs_round10_sub_le (min + (Max.max max (min + 1) - min) / ↑n * ((i:ℚ) + 1))
      rw [abs_sub_le_iff] at h1b h2b
      have hcast : ((i + 1 : ℕ):ℚ) = (i:ℚ) + 1 := by push_cast; ring
      rw [hcast]
      have hexp : min + (Max.max max (min + 1) - min) / ↑n * ((i:ℚ) + 1)
          = min + (Max.max max (min + 1) - min) / ↑n * (i:ℚ)
            + (Max.max max (min + 1) - min) / ↑n := by ring
      nlinarith [h1b.1, h1b.2, h2b.1, h2b.2, hstep, hsmall, hexp]

/-- Witness for C4 at a concrete input: min 0, max 10, 5 intervals. -/
theorem c4_witness :
    (generateTicks 0 10 5).length = 5 + 1 ∧
    (∀ i : ℕ, ∀ t : ℚ, (generateTicks 0 10 5)[i]? = some t →
      |t - (0 + (Max.max 10 (0 + 1) - 0) / (5:ℕ) * i)| ≤ 1 / 10000000000) ∧
    ((5:ℕ) ≤ 1000000000 → List.Chain' (· < ·) (generateTicks 0 10 5)) :=
  c4_tick_generation 0 10 5 (by norm_num)

/-- Counterexample for C4 as stated: with min 0 and max 1/2 (a span
below 1, with max > min) the guard still replaces max by min + 1, so
the ticks end at 1, not at max, and the spacing is (1 - 0)/5 rather
than (max - min)/5. -/
theorem c4_counterexample :
    generateTicks 0 (1/2) 5 = [0, 1/5, 2/5, 3/5, 4/5, 1] ∧
    ((1:ℚ) ≠ 1/2) ∧ ((1/5 : ℚ) ≠ ((1:ℚ)/2 - 0) / 5) := by
  refine ⟨?_, by norm_num, by norm_num⟩
  have hmax : Max.max (1/2 : ℚ) (0 + 1) = 1 := by
    rw [max_eq_right]
    · norm_num
    · norm_num
  simp only [generateTicks, hmax]
  norm_num [List.range_succ, round10, round_eq]

/-- Division of finite values with a nonzero denominator, implicit
numerator form for rewriting. -/
theorem JSNum.div_fin' {a b : ℚ} (hb : b ≠ 0) :
    JSNum.div (JSNum.fin a) (JSNum.fin b) = JSNum.fin (a / b) := by
  simp [JSNum.div, hb]

/-- Clamping a value already known to equal a point inside the range
returns that point. -/
theorem clamp_eq_of_eq {lo hi v q : ℚ} (hv : v = q) (h1 : lo ≤ q) (h2 : q ≤ hi) :
    max lo (min hi v) = q := by
  subst hv
  rw [min_eq_right h2, max_eq_right h1]

/-- Helper for C1: with identical source and target frames (same
position, size, domain, no measured element), rotation 0 on both, a
non-degenerate domain and a nonzero plot rectangle, the per-point
transform returns the point's x unchanged. -/
theorem transformPoint_identity_x (cosQ sinQ : ℚ → ℚ)
    (xmin xmax ymin ymax px py w h qx qy : ℚ) (col : String)
    (hxd : xmax - xmin ≠ 0) (hyd : ymax - ymin ≠ 0)
    (hw : w - 88 ≠ 0) (hh : h - 100 ≠ 0)
    (p : JSPoint) (hpx : p.x = JSNum.fin qx) (hpy : p.y = JSNum.fin qy)
    (hqx1 : xmin ≤ qx) (hqx2 : qx ≤ xmax) :
    (Transform.transformPoint cosQ sinQ
      ⟨JSNum.fin xmin, JSNum.fin xmax, JSNum.fin ymin, JSNum.fin ymax⟩
      ⟨JSNum.fin xmin, JSNum.fin xmax, JSNum.fin ymin, JSNum.fin ymax⟩
      { position := ⟨JSNum.fin px, JSNum.fin py⟩, size := ⟨JSNum.fin w, JSNum.fin h⟩,
        color := col, rotation := JSNum.fin 0, element := none }
      { position := ⟨JSNum.fin px, JSNum.fin py⟩, size := ⟨JSNum.fin w, JSNum.fin h⟩,
        rotation := JSNum.fin 0, element := none } p).x = JSNum.fin qx := by
  have hw' : w - (8 + 1 + 50 + 20 + 8 + 1) ≠ 0 := by
    have e : (8 + 1 + 50 + 20 + 8 + 1 : ℚ) = 88 := by norm_num
    rw [e]
    exact hw
  have hh' : h - (32 + 8 + 1 + 20 + 30 + 8 + 1) ≠ 0 := by
    have e : (32 + 8 + 1 + 20 + 30 + 8 + 1 : ℚ) = 100 := by norm_num
    rw [e]
    exact hh
  simp only [Transform.transformPoint, hpx, hpy, JSNum.orZero_fin, JSNum.mul_fin,
    JSNum.add_fin, JSNum.sub_fin, JSNum.trig_fin, JSNum.neg_fin, JSNum.jmax_fin,
    JSNum.jmin_fin, zero_mul, JSNum.div_fin' (by norm_num : (180:ℚ) ≠ 0), zero_div,
    JSNum.div_fin' (by norm_num : (2:ℚ) ≠ 0), JSNum.div_fin' hxd, JSNum.div_fin' hyd,
    JSNum.div_fin' hw', JSNum.div_fin' hh', ne_eq, not_true_eq_false, if_false, ite_self]
  refine congrArg JSNum.fin (clamp_eq_of_eq ?_ hqx1 hqx2)
  field_simp
  ring

/-- Helper for C1: same setting as transformPoint_identity_x, for the
y coordinate. -/
theorem transformPoint_identity_y (cosQ sinQ : ℚ → ℚ)
    (xmin xmax ymin ymax px py w h qx qy : ℚ) (col : String)
    (hxd : xmax - xmin ≠ 0) (hyd : ymax - ymin ≠ 0)
    (hw : w - 88 ≠ 0) (hh : h - 100 ≠ 0)
    (p : JSPoint) (hpx : p.x = JSNum.fin qx) (hpy : p.y = JSNum.fin qy)
    (hqy1 : ymin ≤ qy) (hqy2 : qy ≤ ymax) :
    (Transform.transformPoint cosQ sinQ
      ⟨JSNum.fin xmin, JSNum.fin xmax, JSNum.fin ymin, JSNum.fin ymax⟩
      ⟨JSNum.fin xmin, JSNum.fin xmax, JSNum.fin ymin, JSNum.fin ymax⟩
      { position := ⟨JSNum.fin px, JSNum.fin py⟩, size := ⟨JSNum.fin w, JSNum.fin h⟩,
        color := col, rotation := JSNum.fin 0, element := none }
      { position := ⟨JSNum.fin px, JSNum.fin py⟩, size := ⟨JSNum.fin w, JSNum.fin h⟩,
        rotation := JSNum.fin 0, element := none } p).y = JSNum.fin qy := by
  have hw' : w - (8 + 1 + 50 + 20 + 8 + 1) ≠ 0 := by
    have e : (8 + 1 + 50 + 20 + 8 + 1 : ℚ) = 88 := by norm_num
    rw [e]
    exact hw
  have hh' : h - (32 + 8 + 1 + 20 + 30 + 8 + 1) ≠ 0 := by
    have e : (32 + 8 + 1 + 20 + 30 + 8 + 1 : ℚ) = 100 := by norm_num
    rw [e]
    exact hh
  simp only [Transform.transformPoint, hpx, hpy, JSNum.orZero_fin, JSNum.mul_fin,
    JSNum.add_fin, JSNum.sub_fin, JSNum.trig_fin, JSNum.neg_fin, JSNum.jmax_fin,
    JSNum.jmin_fin, zero_mul, JSNum.div_fin' (by norm_num : (180:ℚ) ≠ 0), zero_div,
    JSNum.div_fin' (by norm_num : (2:ℚ) ≠ 0), JSNum.div_fin' hxd, JSNum.div_fin' hyd,
    JSNum.div_fin' hw', JSNum.div_fin' hh', ne_eq, not_true_eq_false, if_false, ite_self]
  refine congrArg JSNum.fin (clamp_eq_of_eq ?_ hqy1 hqy2)
  field_simp
  ring

/-- C1 (amended): with identical source and target frames (same
position, size, domain), rotation 0 on both, a non-degenerate domain, a
nonzero interior plot rectangle (width 88 and height 100 are the
degenerate sizes under the computed offsets) and points lying inside
the shared domain, transformPoints returns every point's x and y
unchanged (exactly, hence within any tolerance); in particular, with
frames at (0,0), size 500 x 400, domain {0,5000,0,5000}, the point
(2500, 2500) maps to exactly (2500, 2500). -/
theorem c1_rotation_zero_identity (cosQ sinQ : ℚ → ℚ) (points : List JSPoint)
    (xmin xmax ymin ymax px py w h : ℚ) (col : String)
    (hxd : xmax - xmin ≠ 0) (hyd : ymax - ymin ≠ 0)
    (hw : w - 88 ≠ 0) (hh : h - 100 ≠ 0)
    (hpts : ∀ p ∈ points, ∃ qx qy, p.x = JSNum.fin qx ∧ p.y = JSNum.fin qy ∧
      xmin ≤ qx ∧ qx ≤ xmax ∧ ymin ≤ qy ∧ qy ≤ ymax) :
    (Transform.transformPoints cosQ sinQ points
        ⟨JSNum.fin xmin, JSNum.fin xmax, JSNum.fin ymin, JSNum.fin ymax⟩
        ⟨JSNum.fin xmin, JSNum.fin xmax, JSNum.fin ymin, JSNum.fin ymax⟩
        { position := ⟨JSNum.fin px, JSNum.fin py⟩, size := ⟨JSNum.fin w, JSNum.fin h⟩,
          color := col, rotation := JSNum.fin 0, element := none }
        { position := ⟨JSNum.fin px, JSNum.fin py⟩, size := ⟨JSNum.fin w, JSNum.fin h⟩,
          rotation := JSNum.fin 0, element := none }).map (fun p => (p.x, p.y))
      = points.map (fun p => (p.x, p.y)) ∧
    (Transform.transformPoints zeroTrig zeroTrig
        [{ x := JSNum.fin 2500, y := JSNum.fin 2500 }]
        stdDomains stdDomains stdSourceGraph stdTargetGraph).map (fun p => (p.x, p.y))
      = [(JSNum.fin 2500, JSNum.fin 2500)] := by
  constructor
  · simp only [Transform.transformPoints, List.map_map]
    refine List.map_congr_left (fun p hp => ?_)
    obtain ⟨qx, qy, hpx, hpy, h1, h2, h3, h4⟩ := hpts p hp
    simp only [Function.comp_apply]
    rw [Prod.mk.injEq]
    constructor
    · rw [transformPoint_identity_x cosQ sinQ xmin xmax ymin ymax px py w h qx qy col
        hxd hyd hw hh p hpx hpy h1 h2, hpx]
    · rw [transformPoint_identity_y cosQ sinQ xmin xmax ymin ymax px py w h qx qy col
        hxd hyd hw hh p hpx hpy h3 h4, hpy]
  · simp only [Transform.transformPoints, Transform.transformPoint, List.map,
      stdDomains, stdSourceGraph, stdTargetGraph]
    norm_num [JSNum.div, JSNum.orZero, jsPI, max_def, min_def]

/-- Witness for C1 at a concrete input: the point (1000, 2000) in the
standard 500 x 400 frame with domain {0,5000,0,5000} is returned
unchanged. -/
theorem c1_witness :
    (Transform.transformPoints zeroTrig zeroTrig
        [{ x := JSNum.fin 1000, y := JSNum.fin 2000 }]
        ⟨JSNum.fin 0, JSNum.fin 5000, JSNum.fin 0, JSNum.fin 5000⟩
        ⟨JSNum.fin 0, JSNum.fin 5000, JSNum.fin 0, JSNum.fin 5000⟩
        { position := ⟨JSNum.fin 0, JSNum.fin 0⟩, size := ⟨JSNum.fin 500, JSNum.fin 400⟩,
          color := "#3b82f6", rotation := JSNum.fin 0, element := none }
        { position := ⟨JSNum.fin 0, JSNum.fin 0⟩, size := ⟨JSNum.fin 500, JSNum.fin 400⟩,
          rotation := JSNum.fin 0, element := none }).map (fun p => (p.x, p.y))
      = ([{ x := JSNum.fin 1000, y := JSNum.fin 2000 }] : List JSPoint).map (fun p => (p.x, p.y)) ∧
    (Transform.transformPoints zeroTrig zeroTrig
        [{ x := JSNum.fin 2500, y := JSNum.fin 2500 }]
        stdDomains stdDomains stdSourceGraph stdTargetGraph).map (fun p => (p.x, p.y))
      = [(JSNum.fin 2500, JSNum.fin 2500)] :=
  c1_rotation_zero_identity zeroTrig zeroTrig
    [{ x := JSNum.fin 1000, y := JSNum.fin 2000 }]
    0 5000 0 5000 0 0 500 400 "#3b82f6"
    (by norm_num) (by norm_num) (by norm_num) (by norm_num)
    (by
      intro p hp
      simp only [List.mem_singleton] at hp
      subst hp
      exact ⟨1000, 2000, rfl, rfl, by norm_num, by norm_num, by norm_num, by norm_num⟩)

/-- Counterexample for C1 as stated: a finite point outside the shared
domain is clamped, not returned: (6000, 2500) comes back as
(5000, 2500), which differs from the input x by 1000, far beyond the
1e-6 tolerance. -/
theorem c1_counterexample :
    (Transform.transformPoints zeroTrig zeroTrig
        [{ x := JSNum.fin 6000, y := JSNum.fin 2500 }]
        stdDomains stdDomains stdSourceGraph stdTargetGraph).map JSPoint.x
      = [JSNum.fin 5000] ∧
    ¬ (|(5000:ℚ) - 6000| ≤ 1 / 1000000) := by
  refine ⟨?_, by norm_num⟩
  simp only [Transform.transformPoints, Transform.transformPoint, List.map,
    stdDomains, stdSourceGraph, stdTargetGraph]
  norm_num [JSNum.div, JSNum.orZero, jsPI, max_def, min_def]

/-- Helper for C2: with finite inputs, no measured element, nonzero
source-domain spans, a nonzero target plot rectangle and an ordered
target domain, the per-point transform lands inside the target domain
on both axes, for arbitrary (finite) rotations of either frame. -/
theorem transformPoint_clamped (cosQ sinQ : ℚ → ℚ)
    (fxmin fxmax fymin fymax txmin txmax tymin tymax : ℚ)
    (spx spy sw sh tpx tpy tw th sr tr qx qy : ℚ) (col : String)
    (hsx : fxmax - fxmin ≠ 0) (hsy : fymax - fymin ≠ 0)
    (htw : tw - 88 ≠ 0) (hth : th - 100 ≠ 0)
    (hx : txmin ≤ txmax) (hy : tymin ≤ tymax)
    (p : JSPoint) (hpx : p.x = JSNum.fin qx) (hpy : p.y = JSNum.fin qy) :
    (∃ q', (Transform.transformPoint cosQ sinQ
      ⟨JSNum.fin fxmin, JSNum.fin fxmax, JSNum.fin fymin, JSNum.fin fymax⟩
      ⟨JSNum.fin txmin, JSNum.fin txmax, JSNum.fin tymin, JSNum.fin tymax⟩
      { position := ⟨JSNum.fin spx, JSNum.fin spy⟩, size := ⟨JSNum.fin sw, JSNum.fin sh⟩,
        color := col, rotation := JSNum.fin sr, element := none }
      { position := ⟨JSNum.fin tpx, JSNum.fin tpy⟩, size := ⟨JSNum.fin tw, JSNum.fin th⟩,
        rotation := JSNum.fin tr, element := none } p).x = JSNum.fin q' ∧
      txmin ≤ q' ∧ q' ≤ txmax) ∧
    (∃ q', (Transform.transformPoint cosQ sinQ
      ⟨JSNum.fin fxmin, JSNum.fin fxmax, JSNum.fin fymin, JSNum.fin fymax⟩
      ⟨JSNum.fin txmin, JSNum.fin txmax, JSNum.fin tymin, JSNum.fin tymax⟩
      { position := ⟨JSNum.fin spx, JSNum.fin spy⟩, size := ⟨JSNum.fin sw, JSNum.fin sh⟩,
        color := col, rotation := JSNum.fin sr, element := none }
      { position := ⟨JSNum.fin tpx, JSNum.fin tpy⟩, size := ⟨JSNum.fin tw, JSNum.fin th⟩,
        rotation := JSNum.fin tr, element := none } p).y = JSNum.fin q' ∧
      tymin ≤ q' ∧ q' ≤ tymax) := by
  have htw' : tw - (8 + 1 + 50 + 20 + 8 + 1) ≠ 0 := by
    have e : (8 + 1 + 50 + 20 + 8 + 1 : ℚ) = 88 := by norm_num
    rw [e]
    exact htw
  have hth' : th - (32 + 8 + 1 + 20 + 30 + 8 + 1) ≠ 0 := by
    have e : (32 + 8 + 1 + 20 + 30 + 8 + 1 : ℚ) = 100 := by norm_num
    rw [e]
    exact hth
  simp only [Transform.transformPoint, hpx, hpy]
  split_ifs <;>
    (simp only [JSNum.orZero_fin, JSNum.mul_fin, JSNum.add_fin, JSNum.sub_fin,
      JSNum.trig_fin, JSNum.neg_fin, JSNum.jmax_fin, JSNum.jmin_fin,
      JSNum.div_fin' (by norm_num : (180:ℚ) ≠ 0),
      JSNum.div_fin' (by norm_num : (2:ℚ) ≠ 0), JSNum.div_fin' hsx, JSNum.div_fin' hsy,
      JSNum.div_fin' htw', JSNum.div_fin' hth']
     exact ⟨⟨_, rfl, le_max_left _ _, max_le hx (min_le_left _ _)⟩,
            ⟨_, rfl, le_max_left _ _, max_le hy (min_le_left _ _)⟩⟩)

/-- C2 (amended): for finite input points and an ordered target domain,
given finite frame geometry with nonzero source-domain spans and a
nonzero target plot rectangle, every point returned by transformPoints
has x in [toDomains.xMin, toDomains.xMax] and y in
[toDomains.yMin, toDomains.yMax]: out-of-range positions are pinned to
the boundary, not discarded.  (Without those provisos the claim fails:
a zero-extent target rectangle can produce NaN, see the
counterexample.) -/
theorem c2_output_clamped_into_target_domain (cosQ sinQ : ℚ → ℚ) (points : List JSPoint)
    (fxmin fxmax fymin fymax txmin txmax tymin tymax : ℚ)
    (spx spy sw sh tpx tpy tw th sr tr : ℚ) (col : String)
    (hsx : fxmax - fxmin ≠ 0) (hsy : fymax - fymin ≠ 0)
    (htw : tw - 88 ≠ 0) (hth : th - 100 ≠ 0)
    (hx : txmin ≤ txmax) (hy : tymin ≤ tymax)
    (hpts : ∀ p ∈ points, ∃ qx qy, p.x = JSNum.fin qx ∧ p.y = JSNum.fin qy) :
    ∀ p' ∈ Transform.transformPoints cosQ sinQ points
      ⟨JSNum.fin fxmin, JSNum.fin fxmax, JSNum.fin fymin, JSNum.fin fymax⟩
      ⟨JSNum.fin txmin, JSNum.fin txmax, JSNum.fin tymin, JSNum.fin tymax⟩
      { position := ⟨JSNum.fin spx, JSNum.fin spy⟩, size := ⟨JSNum.fin sw, JSNum.fin sh⟩,
        color := col, rotation := JSNum.fin sr, element := none }
      { position := ⟨JSNum.fin tpx, JSNum.fin tpy⟩, size := ⟨JSNum.fin tw, JSNum.fin th⟩,
        rotation := JSNum.fin tr, element := none },
      (∃ q', p'.x = JSNum.fin q' ∧ txmin ≤ q' ∧ q' ≤ txmax) ∧
      (∃ q', p'.y = JSNum.fin q' ∧ tymin ≤ q' ∧ q' ≤ tymax) := by
  intro p' hp'
  simp only [Transform.transformPoints, List.mem_map] at hp'
  obtain ⟨p, hp, rfl⟩ := hp'
  obtain ⟨qx, qy, hpx, hpy⟩ := hpts p hp
  exact transformPoint_clamped cosQ sinQ fxmin fxmax fymin fymax txmin txmax tymin tymax
    spx spy sw sh tpx tpy tw th sr tr qx qy col hsx hsy htw hth hx hy p hpx hpy

/-- Witness for C2 at a concrete input: the out-of-domain point
(9999, -5) in the standard geometry is clamped into [0, 5000] on both
axes. -/
theorem c2_witness :
    (∃ q', (Transform.transformPoint zeroTrig zeroTrig
      ⟨JSNum.fin 0, JSNum.fin 5000, JSNum.fin 0, JSNum.fin 5000⟩
      ⟨JSNum.fin 0, JSNum.fin 5000, JSNum.fin 0, JSNum.fin 5000⟩
      { position := ⟨JSNum.fin 0, JSNum.fin 0⟩, size := ⟨JSNum.fin 500, JSNum.fin 400⟩,
        color := "#3b82f6", rotation := JSNum.fin 0, element := none }
      { position := ⟨JSNum.fin 0, JSNum.fin 0⟩, size := ⟨JSNum.fin 500, JSNum.fin 400⟩,
        rotation := JSNum.fin 0, element := none }
      { x := JSNum.fin 9999, y := JSNum.fin (-5) }).x = JSNum.fin q' ∧
      (0:ℚ) ≤ q' ∧ q' ≤ 5000) ∧
    (∃ q', (Transform.transformPoint zeroTrig zeroTrig
      ⟨JSNum.fin 0, JSNum.fin 5000, JSNum.fin 0, JSNum.fin 5000⟩
      ⟨JSNum.fin 0, JSNum.fin 5000, JSNum.fin 0, JSNum.fin 5000⟩
      { position := ⟨JSNum.fin 0, JSNum.fin 0⟩, size := ⟨JSNum.fin 500, JSNum.fin 400⟩,
        color := "#3b82f6", rotation := JSNum.fin 0, element := none }
      { position := ⟨JSNum.fin 0, JSNum.fin 0⟩, size := ⟨JSNum.fin 500, JSNum.fin 400⟩,
        rotation := JSNum.fin 0, element := none }
      { x := JSNum.fin 9999, y := JSNum.fin (-5) }).y = JSNum.fin q' ∧
      (0:ℚ) ≤ q' ∧ q' ≤ 5000) :=
  c2_output_clamped_into_target_domain zeroTrig zeroTrig
    [{ x := JSNum.fin 9999, y := JSNum.fin (-5) }]
    0 5000 0 5000 0 5000 0 5000 0 0 500 400 0 0 500 400 0 0 "#3b82f6"
    (by norm_num) (by norm_num) (by norm_num) (by norm_num) (by norm_num) (by norm_num)
    (by
      intro p hp
      simp only [List.mem_singleton] at hp
      subst hp
      exact ⟨9999, -5, rfl, rfl⟩)
    (Transform.transformPoint zeroTrig zeroTrig
      ⟨JSNum.fin 0, JSNum.fin 5000, JSNum.fin 0, JSNum.fin 5000⟩
      ⟨JSNum.fin 0, JSNum.fin 5000, JSNum.fin 0, JSNum.fin 5000⟩
      { position := ⟨JSNum.fin 0, JSNum.fin 0⟩, size := ⟨JSNum.fin 500, JSNum.fin 400⟩,
        color := "#3b82f6", rotation := JSNum.fin 0, element := none }
      { position := ⟨JSNum.fin 0, JSNum.fin 0⟩, size := ⟨JSNum.fin 500, JSNum.fin 400⟩,
        rotation := JSNum.fin 0, element := none }
      { x := JSNum.fin 9999, y := JSNum.fin (-5) })
    (by simp [Transform.transformPoints])

/-- Counterexample for C2 as stated: with a valid target domain but a
zero-extent target plot rectangle (target frame height 100, inner
height 0), the point (2500, 5000) comes out with NaN y, which lies in
no interval, so the output is not within the target domain. -/
theorem c2_counterexample :
    (Transform.transformPoints zeroTrig zeroTrig
        [{ x := JSNum.fin 2500, y := JSNum.fin 5000 }]
        stdDomains stdDomains stdSourceGraph
        { position := ⟨JSNum.fin 0, JSNum.fin 0⟩, size := ⟨JSNum.fin 500, JSNum.fin 100⟩,
          rotation := JSNum.fin 0 }).map JSPoint.y = [JSNum.nan] ∧
    JSNum.nan.isFinite = false := by
  refine ⟨?_, rfl⟩
  simp only [Transform.transformPoints, Transform.transformPoint, List.map,
    stdDomains, stdSourceGraph]
  norm_num [JSNum.div, JSNum.orZero, jsPI, max_def, min_def]

/-- Helper for C7: the clamped denormalization after a division by a
zero inner extent is NaN or one of the two domain bounds. -/
theorem degenerate_norm_cases (lo hi a s : ℚ) (hspos : 0 < s) (hlh : lo ≤ hi) :
    JSNum.jmax (JSNum.fin lo) (JSNum.jmin (JSNum.fin hi)
      (JSNum.add (JSNum.fin lo)
        (JSNum.mul (JSNum.div (JSNum.fin a) (JSNum.fin 0)) (JSNum.fin s))))
      = JSNum.nan ∨
    JSNum.jmax (JSNum.fin lo) (JSNum.jmin (JSNum.fin hi)
      (JSNum.add (JSNum.fin lo)
        (JSNum.mul (JSNum.div (JSNum.fin a) (JSNum.fin 0)) (JSNum.fin s))))
      = JSNum.fin lo ∨
    JSNum.jmax (JSNum.fin lo) (JSNum.jmin (JSNum.fin hi)
      (JSNum.add (JSNum.fin lo)
        (JSNum.mul (JSNum.div (JSNum.fin a) (JSNum.fin 0)) (JSNum.fin s))))
      = JSNum.fin hi := by
  rcases lt_trichotomy a 0 with h | h | h
  · refine Or.inr (Or.inl ?_)
    simp [JSNum.div, JSNum.mul, JSNum.add, JSNum.jmin, JSNum.jmax, h,
      not_lt.mpr (le_of_lt h), hspos]
  · subst h
    refine Or.inl ?_
    simp [JSNum.div, JSNum.mul, JSNum.add, JSNum.jmin, JSNum.jmax]
  · refine Or.inr (Or.inr ?_)
    simp [JSNum.div, JSNum.mul, JSNum.add, JSNum.jmin, JSNum.jmax, h,
      not_lt.mpr (le_of_lt h), hspos, max_eq_right hlh]


/-- C7 (amended): transformPoints never throws (it is a total function:
every input list yields an output of the same length), but a zero
interior plot extent is NOT repaired to 1: with a degenerate target
rectangle (target width 88, inner width 0) the division by the zero
extent makes every output x either NaN (numerator 0) or the domain
boundary xMin / xMax (the infinite quotient is clamped); the finite
interior positions the repaired computation would produce never
occur. -/
theorem c7_zero_extent_rectangle (cosQ sinQ : ℚ → ℚ) (points : List JSPoint)
    (fxmin fxmax fymin fymax txmin txmax tymin tymax : ℚ)
    (spx spy sw sh tpx tpy tw th : ℚ) (col : String)
    (hsx : fxmax - fxmin ≠ 0)
    (htw : tw - 88 = 0)
    (hx : txmin < txmax)
    (hpts : ∀ p ∈ points, ∃ qx, p.x = JSNum.fin qx) :
    (Transform.transformPoints cosQ sinQ points
      ⟨JSNum.fin fxmin, JSNum.fin fxmax, JSNum.fin fymin, JSNum.fin fymax⟩
      ⟨JSNum.fin txmin, JSNum.fin txmax, JSNum.fin tymin, JSNum.fin tymax⟩
      { position := ⟨JSNum.fin spx, JSNum.fin spy⟩, size := ⟨JSNum.fin sw, JSNum.fin sh⟩,
        color := col, rotation := JSNum.fin 0, element := none }
      { position := ⟨JSNum.fin tpx, JSNum.fin tpy⟩, size := ⟨JSNum.fin tw, JSNum.fin th⟩,
        rotation := JSNum.fin 0, element := none }).length = points.length ∧
    ∀ p' ∈ Transform.transformPoints cosQ sinQ points
      ⟨JSNum.fin fxmin, JSNum.fin fxmax, JSNum.fin fymin, JSNum.fin fymax⟩
      ⟨JSNum.fin txmin, JSNum.fin txmax, JSNum.fin tymin, JSNum.fin tymax⟩
      { position := ⟨JSNum.fin spx, JSNum.fin spy⟩, size := ⟨JSNum.fin sw, JSNum.fin sh⟩,
        color := col, rotation := JSNum.fin 0, element := none }
      { position := ⟨JSNum.fin tpx, JSNum.fin tpy⟩, size := ⟨JSNum.fin tw, JSNum.fin th⟩,
        rotation := JSNum.fin 0, element := none },
      (p'.x = JSNum.nan ∨ p'.x = JSNum.fin txmin ∨ p'.x = JSNum.fin txmax) := by
  refine ⟨by simp [Transform.transformPoints], ?_⟩
  intro p' hp'
  simp only [Transform.transformPoints, List.mem_map] at hp'
  obtain ⟨p, hp, rfl⟩ := hp'
  obtain ⟨qx, hpx⟩ := hpts p hp
  have h0 : tw - (8 + 1 + 50 + 20 + 8 + 1) = 0 := by
    have e : (8 + 1 + 50 + 20 + 8 + 1 : ℚ) = 88 := by norm_num
    rw [e]
    exact htw
  simp only [Transform.transformPoint, hpx, JSNum.orZero_fin, JSNum.mul_fin,
    JSNum.add_fin, JSNum.sub_fin, JSNum.trig_fin, JSNum.neg_fin,
    zero_mul, JSNum.div_fin' (by norm_num : (180:ℚ) ≠ 0), zero_div,
    JSNum.div_fin' (by norm_num : (2:ℚ) ≠ 0), JSNum.div_fin' hsx,
    h0, ne_eq, not_true_eq_false, if_false, ite_self]
  exact degenerate_norm_cases txmin txmax _ _ (by linarith) (le_of_lt hx)

/-- Witness for C7 at a concrete input: with target width 88 the single
transformed point's x is NaN or a bound of [0, 5000], and the batch
size is preserved. -/
theorem c7_witness :
    (Transform.transformPoints zeroTrig zeroTrig
      [{ x := JSNum.fin 0, y := JSNum.fin 2500 }]
      ⟨JSNum.fin 0, JSNum.fin 5000, JSNum.fin 0, JSNum.fin 5000⟩
      ⟨JSNum.fin 0, JSNum.fin 5000, JSNum.fin 0, JSNum.fin 5000⟩
      { position := ⟨JSNum.fin 0, JSNum.fin 0⟩, size := ⟨JSNum.fin 500, JSNum.fin 400⟩,
        color := "#3b82f6", rotation := JSNum.fin 0, element := none }
      { position := ⟨JSNum.fin 0, JSNum.fin 0⟩, size := ⟨JSNum.fin 88, JSNum.fin 400⟩,
        rotation := JSNum.fin 0, element := none }).length
      = ([{ x := JSNum.fin 0, y := JSNum.fin 2500 }] : List JSPoint).length ∧
    ∀ p' ∈ Transform.transformPoints zeroTrig zeroTrig
      [{ x := JSNum.fin 0, y := JSNum.fin 2500 }]
      ⟨JSNum.fin 0, JSNum.fin 5000, JSNum.fin 0, JSNum.fin 5000⟩
      ⟨JSNum.fin 0, JSNum.fin 5000, JSNum.fin 0, JSNum.fin 5000⟩
      { position := ⟨JSNum.fin 0, JSNum.fin 0⟩, size := ⟨JSNum.fin 500, JSNum.fin 400⟩,
        color := "#3b82f6", rotation := JSNum.fin 0, element := none }
      { position := ⟨JSNum.fin 0, JSNum.fin 0⟩, size := ⟨JSNum.fin 88, JSNum.fin 400⟩,
        rotation := JSNum.fin 0, element := none },
      (p'.x = JSNum.nan ∨ p'.x = JSNum.fin 0 ∨ p'.x = JSNum.fin 5000) :=
  c7_zero_extent_rectangle zeroTrig zeroTrig
    [{ x := JSNum.fin 0, y := JSNum.fin 2500 }]
    0 5000 0 5000 0 5000 0 5000 0 0 500 400 0 0 88 400 "#3b82f6"
    (by norm_num) (by norm_num) (by norm_num)
    (by
      intro p hp
      simp only [List.mem_singleton] at hp
      subst hp
      exact ⟨0, rfl⟩)

/-- Counterexample for C7 as stated: no "treated as 1" repair exists.
With the target frame 88 pixels wide (interior width exactly 0) the
point (0, 2500) is transformed to NaN x: the division by zero does
happen, and the result is not clamped into the target domain (NaN is
not a finite value), contradicting both the repair and the
still-clamped parts of the claim. -/
theorem c7_counterexample :
    (Transform.transformPoints zeroTrig zeroTrig
        [{ x := JSNum.fin 0, y := JSNum.fin 2500 }]
        stdDomains stdDomains stdSourceGraph
        { position := ⟨JSNum.fin 0, JSNum.fin 0⟩, size := ⟨JSNum.fin 88, JSNum.fin 400⟩,
          rotation := JSNum.fin 0 }).map JSPoint.x = [JSNum.nan] ∧
    (JSNum.nan).isFinite = false := by
  refine ⟨?_, rfl⟩
  simp only [Transform.transformPoints, Transform.transformPoint, List.map,
    stdDomains, stdSourceGraph]
  norm_num [JSNum.div, JSNum.orZero, jsPI, max_def, min_def]
